import Mathlib

/-!
Shallow embedding of the theme-transition controller and anchor-scroll
handler of `src/index.tsx`, together with proofs of the specified
properties.  The DOM is modelled by explicit state passing: element style
properties are strings, the body's class list is a pair of booleans, the
persisted store is an `Option String` plus a log of every write, and the
asynchronous machinery (transition-end listeners, animation-frame
callbacks, timers) is made explicit in a `World` record whose steps are
pure functions.  Every observable side effect is also appended to a trace,
so temporal ordering claims become statements about the trace.
-/

/-- `type ThemeSetting = 'light' | 'dark'` (src/index.tsx line 17). -/
inductive ThemeSetting
  | light
  | dark
deriving DecidableEq, Repr

/-- The string persisted for a setting (`localStorage.setItem('themeSetting', newSetting)`). -/
def ThemeSetting.str : ThemeSetting → String
  | .light => "light"
  | .dark => "dark"

/-- Inline style properties of the `#theme-transition-overlay` element that
the controller touches (`themeOverlay.style.*`). -/
structure OverlayStyle where
  pointerEvents : String
  transition : String
  opacity : String
  backgroundColor : String
deriving DecidableEq, Repr

/-- Visible state of the theme-toggle control: presence of the
`active`/`inactive` marker classes on the two icons, and the button's
`aria-label`. -/
structure ButtonState where
  sunActive : Bool
  sunInactive : Bool
  moonActive : Bool
  moonInactive : Bool
  ariaLabel : String
deriving DecidableEq, Repr

/-- Which of the optional DOM elements were found at script start
(src/index.tsx lines 7-11).  `document.body` always exists. -/
structure DomPresence where
  hasToggleButton : Bool
  hasSunIcon : Bool
  hasMoonIcon : Bool
  hasOverlay : Bool
deriving DecidableEq, Repr

/-- The controller's mutable state: the module-level `let` bindings of
src/index.tsx plus the DOM state it mutates.  `storeWrites` logs every
value ever passed to `localStorage.setItem('themeSetting', _)`. -/
structure ControllerState where
  isTransitioning : Bool
  failsafeTimeoutId : Option Nat
  currentThemeSetting : ThemeSetting
  store : Option String
  storeWrites : List String
  darkMode : Bool
  themeTransitionActive : Bool
  overlay : OverlayStyle
  button : ButtonState
deriving DecidableEq, Repr

/-- One observable DOM side effect, recorded in order of execution. -/
inductive TraceEv
  | overlayBgColor (c : String)
  | overlayOpacity (v : String)
  | overlayTransition (s : String)
  | overlayPointerEvents (s : String)
  | addBodyClass (c : String)
  | removeBodyClass (c : String)
  | layoutRead
  | setBodyDarkMode (b : Bool)
  | storeWrite (v : String)
  | armTimer (id ms : Nat)
  | clearTimer (id : Nat)
deriving DecidableEq, Repr

/-- The three `transitionend` handlers of the multi-phase transition
(`handlePhase1End`, `handlePhase2End`, `handlePhase3End`). -/
inductive Phase
  | phase1
  | phase2
  | phase3
deriving DecidableEq, Repr

/-- Values the three phases' closures capture from `applyTheme`'s scope. -/
structure TransitionCtx where
  actualThemeToApply : ThemeSetting
  targetBgColor : String
deriving DecidableEq, Repr

/-- The pending `requestAnimationFrame` callback, if any (each phase arms
exactly one). -/
inductive RafAction
  | setOpacity1
  | setBgColor (c : String)
  | setOpacity0
deriving DecidableEq, Repr

/-- A `TransitionEvent` as observed by the handlers: whether
`event.target` is the overlay itself, and `event.propertyName`. -/
structure TransitionEventJs where
  targetIsOverlay : Bool
  propertyName : String
deriving DecidableEq, Repr

/-- The whole world: controller state, the single `transitionend` listener
slot on the overlay (all listeners are added with `\x7bonce: true\x7d`),
its captured context, the pending animation-frame callback, the pending
timers (id, delay ms), a fresh-id counter, and the effect trace. -/
structure World where
  dom : DomPresence
  st : ControllerState
  listener : Option Phase
  ctx : Option TransitionCtx
  raf : Option RafAction
  timers : List (Nat × Nat)
  nextTimerId : Nat
  trace : List TraceEv
deriving DecidableEq, Repr

/-- CSS custom property `--bg-color` (src/index.css line 3). -/
def bgColorLight : String := "#F4EEFF"

/-- CSS custom property `--dark-bg-color` (src/index.css line 25). -/
def bgColorDark : String := "#161224"

/-- `rootStyle.getPropertyValue(...)` for the background of a theme
(src/index.tsx lines 92-97). -/
def bgColorOf : ThemeSetting → String
  | .dark => bgColorDark
  | .light => bgColorLight

/-- Parse a leading unsigned decimal out of a style string, as JS
`parseFloat` does for the strings this program stores in
`style.opacity` (`'0'`, `'1'`).  The result is a scaled integer
`(mantissa, scale)` denoting `mantissa / 10 ^ scale`; `none` models
`NaN` (no leading digit). -/
def parseFloatDec (s : String) : Option (Nat × Nat) :=
  let cs := s.toList
  let intDigits := cs.takeWhile Char.isDigit
  if intDigits.isEmpty then none
  else
    let rest := cs.drop intDigits.length
    let fracDigits :=
      match rest with
      | '.' :: r => r.takeWhile Char.isDigit
      | _ => []
    let digitVal : Nat → Char → Nat := fun a c => a * 10 + (c.toNat - 48)
    some ((intDigits ++ fracDigits).foldl digitVal 0, fracDigits.length)

/-- `parseFloat(s) < c` with JS semantics: false when the parse is `NaN`
(`NaN` compares false against everything). -/
def parseFloatLt (s : String) (c : Nat) : Bool :=
  match parseFloatDec s with
  | some (m, k) => m < c * 10 ^ k
  | none => false

/-- `parseFloat(s) > c` with JS semantics: false when the parse is `NaN`
(`NaN` compares false against everything). -/
def parseFloatGt (s : String) (c : Nat) : Bool :=
  match parseFloatDec s with
  | some (m, k) => c * 10 ^ k < m
  | none => false

/-- Append an effect to the trace. -/
def logEv (w : World) (e : TraceEv) : World :=
  { w with trace := w.trace ++ [e] }

/-- `localStorage.setItem('themeSetting', v)`. -/
def storeSet (w : World) (v : String) : World :=
  logEv { w with st := { w.st with store := some v, storeWrites := w.st.storeWrites ++ [v] } }
    (.storeWrite v)

def setOverlayPointerEvents (w : World) (v : String) : World :=
  logEv { w with st := { w.st with overlay := { w.st.overlay with pointerEvents := v } } }
    (.overlayPointerEvents v)

def setOverlayTransition (w : World) (v : String) : World :=
  logEv { w with st := { w.st with overlay := { w.st.overlay with transition := v } } }
    (.overlayTransition v)

def setOverlayOpacity (w : World) (v : String) : World :=
  logEv { w with st := { w.st with overlay := { w.st.overlay with opacity := v } } }
    (.overlayOpacity v)

def setOverlayBgColor (w : World) (v : String) : World :=
  logEv { w with st := { w.st with overlay := { w.st.overlay with backgroundColor := v } } }
    (.overlayBgColor v)

/-- `updateToggleButtonState` (src/index.tsx lines 20-35). -/
def updateToggleButtonState (w : World) (setting : ThemeSetting) : World :=
  if !w.dom.hasSunIcon || !w.dom.hasMoonIcon || !w.dom.hasToggleButton then w
  else
    let ariaLabel :=
      if setting = .light then "Tema atual: Claro. Mudar para tema escuro."
      else "Tema atual: Escuro. Mudar para tema claro."
    { w with st := { w.st with button :=
        { sunActive := setting = .light
          sunInactive := setting ≠ .light
          moonActive := setting = .dark
          moonInactive := setting ≠ .dark
          ariaLabel := ariaLabel } } }

/-- `setVisualThemeOnBody` (src/index.tsx lines 38-40):
`body.classList.toggle('dark-mode', actualTheme === 'dark')`. -/
def setVisualThemeOnBody (w : World) (actualTheme : ThemeSetting) : World :=
  logEv { w with st := { w.st with darkMode := actualTheme = .dark } }
    (.setBodyDarkMode (actualTheme = .dark))

/-- `clearTimeout(id)`: cancels the pending timer with that id, if any. -/
def clearTimeoutW (w : World) (id : Nat) : World :=
  logEv { w with timers := w.timers.filter (fun t => t.1 ≠ id) } (.clearTimer id)

/-- `window.setTimeout(_, ms)`: arms a fresh timer and returns its id. -/
def setTimeoutW (w : World) (ms : Nat) : World × Nat :=
  let id := w.nextTimerId
  (logEv { w with timers := (id, ms) :: w.timers, nextTimerId := id + 1 } (.armTimer id ms), id)

/-- `resetTransitionOverlay` (src/index.tsx lines 42-54). -/
def resetTransitionOverlay (w : World) : World :=
  let w :=
    if w.dom.hasOverlay then
      setOverlayOpacity (setOverlayTransition (setOverlayPointerEvents w "none") "none") "0"
    else w
  let w := { w with st := { w.st with isTransitioning := false } }
  let w :=
    match w.st.failsafeTimeoutId with
    | some id =>
        let w := clearTimeoutW w id
        { w with st := { w.st with failsafeTimeoutId := none } }
    | none => w
  logEv { w with st := { w.st with themeTransitionActive := false } }
    (.removeBodyClass "theme-transition-active")

def phase1Duration : Nat := 500

def phase2Duration : Nat := 700

def phase3Duration : Nat := 500

/-- `failsafeDuration = phase1Duration + phase2Duration + phase3Duration + 500`. -/
def failsafeDuration : Nat := phase1Duration + phase2Duration + phase3Duration + 500

/-- `applyTheme` (src/index.tsx lines 57-157): the synchronous part of a
call.  The asynchronous continuations it arms (the animation-frame
callback, the failsafe timer callback and the `transitionend` listener)
are recorded in the world and run by `runRaf`, `fireTimer` and
`deliverTransitionEnd` below. -/
def applyTheme (w : World) (newSetting : ThemeSetting) (isInitialLoad : Bool := false) : World :=
  if !w.dom.hasOverlay || !w.dom.hasSunIcon || !w.dom.hasMoonIcon then
    -- Fallback for critical errors or missing elements
    let w := { w with st := { w.st with currentThemeSetting := newSetting } }
    let w := storeSet w newSetting.str
    let w := setVisualThemeOnBody w newSetting
    if w.dom.hasToggleButton then updateToggleButtonState w newSetting else w
  else
    let w := { w with st := { w.st with currentThemeSetting := newSetting } }
    let w := storeSet w newSetting.str
    let w := updateToggleButtonState w newSetting
    let actualThemeToApply := newSetting
    let currentActualBodyTheme : ThemeSetting := if w.st.darkMode then .dark else .light
    if isInitialLoad then
      setVisualThemeOnBody w actualThemeToApply
    else if w.st.isTransitioning || actualThemeToApply = currentActualBodyTheme then
      w
    else
      let w := { w with st := { w.st with isTransitioning := true } }
      let currentBgColor := bgColorOf currentActualBodyTheme
      let targetBgColor := bgColorOf actualThemeToApply
      let w := setOverlayBgColor w currentBgColor
      let w := setOverlayOpacity w "0"
      let w := setOverlayTransition w
        ("opacity " ++ toString phase1Duration ++ "ms ease-in-out")
      let w := setOverlayPointerEvents w "auto"
      let w := { w with raf := some .setOpacity1 }
      let w :=
        match w.st.failsafeTimeoutId with
        | some id => clearTimeoutW w id
        | none => w
      let (w, newId) := setTimeoutW w failsafeDuration
      let w := { w with st := { w.st with failsafeTimeoutId := some newId } }
      { w with listener := some .phase1,
               ctx := some { actualThemeToApply, targetBgColor } }

/-- Run the pending `requestAnimationFrame` callback, if any
(src/index.tsx lines 104-106, 134-136, 145-147). -/
def runRaf (w : World) : World :=
  match w.raf with
  | none => w
  | some a =>
      let w := { w with raf := none }
      match a with
      | .setOpacity1 => setOverlayOpacity w "1"
      | .setBgColor c => setOverlayBgColor w c
      | .setOpacity0 => setOverlayOpacity w "0"

/-- Body of `handlePhase1End` (src/index.tsx lines 121-138), run after the
`\x7bonce: true\x7d` removal has already disarmed the listener. -/
def handlePhase1EndBody (w : World) (c : TransitionCtx) (ev : TransitionEventJs) : World :=
  if !ev.targetIsOverlay || ev.propertyName ≠ "opacity"
      || parseFloatLt w.st.overlay.opacity 1 then w
  else
    let w := logEv { w with st := { w.st with themeTransitionActive := true } }
      (.addBodyClass "theme-transition-active")
    let w := logEv w .layoutRead
    let w := setVisualThemeOnBody w c.actualThemeToApply
    let w := logEv w .layoutRead
    let w := logEv { w with st := { w.st with themeTransitionActive := false } }
      (.removeBodyClass "theme-transition-active")
    let w := setOverlayTransition w
      ("background-color " ++ toString phase2Duration ++ "ms ease-in-out")
    let w := { w with raf := some (.setBgColor c.targetBgColor) }
    { w with listener := some .phase2 }

/-- Body of `handlePhase2End` (src/index.tsx lines 140-149). -/
def handlePhase2EndBody (w : World) (ev : TransitionEventJs) : World :=
  if !ev.targetIsOverlay || ev.propertyName ≠ "background-color" then w
  else
    let w := setOverlayTransition w
      ("opacity " ++ toString phase3Duration ++ "ms ease-in-out")
    let w := { w with raf := some .setOpacity0 }
    { w with listener := some .phase3 }

/-- Body of `handlePhase3End` (src/index.tsx lines 151-154). -/
def handlePhase3EndBody (w : World) (ev : TransitionEventJs) : World :=
  if !ev.targetIsOverlay || ev.propertyName ≠ "opacity"
      || parseFloatGt w.st.overlay.opacity 0 then w
  else
    resetTransitionOverlay w

/-- Deliver a `transitionend` event to the overlay.  The armed listener
(if any) was registered with `\x7bonce: true\x7d`, so it is removed when
invoked, before its body runs and regardless of the body's early
returns. -/
def deliverTransitionEnd (w : World) (ev : TransitionEventJs) : World :=
  match w.listener, w.ctx with
  | some p, some c =>
      let w := { w with listener := none }
      match p with
      | .phase1 => handlePhase1EndBody w c ev
      | .phase2 => handlePhase2EndBody w ev
      | .phase3 => handlePhase3EndBody w ev
  | _, _ => w

/-- Fire the timer with the given id, if it is still pending: this runs
the failsafe callback of src/index.tsx lines 109-119. -/
def fireTimer (w : World) (id : Nat) : World :=
  if (w.timers.filter (fun t => t.1 = id)).isEmpty then w
  else
    let w := { w with timers := w.timers.filter (fun t => t.1 ≠ id) }
    if w.st.isTransitioning then
      let w := resetTransitionOverlay w
      let finalActualTheme := w.st.currentThemeSetting
      let w :=
        if (if w.st.darkMode then ThemeSetting.dark else .light) ≠ finalActualTheme then
          setVisualThemeOnBody w finalActualTheme
        else w
      updateToggleButtonState w w.st.currentThemeSetting
    else w

/-- The theme-initialization part of `initComponents`
(src/index.tsx lines 176-186): read the stored setting, normalize it,
and apply it as the initial load. -/
def initComponentsTheme (w : World) : World :=
  let storedSetting := w.st.store
  let w :=
    if storedSetting = some "dark" then
      { w with st := { w.st with currentThemeSetting := .dark } }
    else
      let w := { w with st := { w.st with currentThemeSetting := .light } }
      if storedSetting ≠ some "light" then storeSet w "light" else w
  applyTheme w w.st.currentThemeSetting true

/-- The theme-toggle click handler (src/index.tsx lines 189-192). -/
def clickToggle (w : World) : World :=
  let newTheme : ThemeSetting :=
    if w.st.currentThemeSetting = .light then .dark else .light
  applyTheme w newTheme

/-! ### Canonical fixture worlds used to instantiate the claims -/

/-- Overlay style as the stylesheet initializes it (idle overlay). -/
def initOverlay : OverlayStyle :=
  { pointerEvents := "none", transition := "", opacity := "0", backgroundColor := "" }

/-- Toggle-control state displaying a given setting. -/
def buttonFor (s : ThemeSetting) : ButtonState :=
  { sunActive := s = .light
    sunInactive := s ≠ .light
    moonActive := s = .dark
    moonInactive := s ≠ .dark
    ariaLabel :=
      if s = .light then "Tema atual: Claro. Mudar para tema escuro."
      else "Tema atual: Escuro. Mudar para tema claro." }

/-- All optional DOM elements found. -/
def allPresent : DomPresence :=
  { hasToggleButton := true, hasSunIcon := true, hasMoonIcon := true, hasOverlay := true }

/-- An idle, consistent world whose visible and logical theme are both `t`. -/
def idleWorld (t : ThemeSetting) : World :=
  { dom := allPresent
    st := { isTransitioning := false, failsafeTimeoutId := none,
            currentThemeSetting := t, store := some t.str, storeWrites := [],
            darkMode := t = .dark, themeTransitionActive := false,
            overlay := initOverlay, button := buttonFor t }
    listener := none, ctx := none, raf := none, timers := [], nextTimerId := 1,
    trace := [] }

/-- The genuine completion event of an opacity transition on the overlay. -/
def evOpacity : TransitionEventJs := { targetIsOverlay := true, propertyName := "opacity" }

/-- The genuine completion event of a background-color transition on the overlay. -/
def evBg : TransitionEventJs := { targetIsOverlay := true, propertyName := "background-color" }

/-- A `transitionend` notification that bubbled up from a descendant of the
overlay: `event.target !== themeOverlay`. -/
def evSpurious : TransitionEventJs := { targetIsOverlay := false, propertyName := "opacity" }

/-- Full happy-path schedule: `applyTheme`, the phase-1 animation frame,
then the three genuine phase-completion events with their animation
frames, in the order the browser delivers them. -/
def happyPathRun (t s : ThemeSetting) : World :=
  let w := applyTheme (idleWorld t) s false
  let w := runRaf w
  let w := deliverTransitionEnd w evOpacity
  let w := runRaf w
  let w := deliverTransitionEnd w evBg
  let w := runRaf w
  deliverTransitionEnd w evOpacity

/-- A world in the middle of phase 1 of a light-to-dark transition: the
transition has started and the overlay's opacity has been raised to 1. -/
def phase1World : World := runRaf (applyTheme (idleWorld .light) .dark)

/-- Scenario for a second `applyTheme` call mid-transition: from an idle
world visibly showing `s2`, a transition to `s1` starts; while it is in
flight `applyTheme s2` is called; the first transition then completes
naturally. -/
def staleScenario (s1 s2 : ThemeSetting) : World :=
  let w := applyTheme (idleWorld s2) s1 false
  let w := runRaf w
  let w := applyTheme w s2 false
  let w := deliverTransitionEnd w evOpacity
  let w := runRaf w
  let w := deliverTransitionEnd w evBg
  let w := runRaf w
  deliverTransitionEnd w evOpacity

/-- A world whose persisted `themeSetting` entry holds an invalid token. -/
def invalidStoreWorld : World :=
  { idleWorld .light with st := { (idleWorld .light).st with store := some "purple" } }

/-- A world where the toggle button and moon icon exist but the sun icon
is missing (so `applyTheme` takes its degraded path). -/
def iconMissingWorld : World :=
  { idleWorld .light with dom :=
      { hasToggleButton := true, hasSunIcon := false, hasMoonIcon := true, hasOverlay := true } }

/-! ### Anchor-scroll handler (src/index.tsx lines 219-249) -/

/-- Browser environment a fragment-link click sees: `document.querySelector`
(which can throw, return no element, or return an element modelled by its
`getBoundingClientRect().top`), the current `window.pageYOffset`, and the
`header` element with its computed `position` and `offsetHeight`. -/
structure AnchorEnv where
  query : String → Except Unit (Option Int)
  pageYOffset : Int
  header : Option (String × Int)

/-- Observable outcome of the click handler: whether `e.preventDefault()`
was called, and the `window.scrollTo` target and behavior if any. -/
structure AnchorOutcome where
  prevented : Bool
  scrollTop : Option Int
  smooth : Bool
deriving DecidableEq, Repr

/-- `p.startsWith(q)` over the underlying character lists (JS
`String.prototype.startsWith`). -/
def jsStartsWith (s p : String) : Bool :=
  p.toList.isPrefixOf s.toList

/-- The anchor click handler (src/index.tsx lines 220-248): `href` is
`this.getAttribute('href')` (`none` models `null`); any exception from the
`try` block is swallowed. -/
def handleAnchorClick (env : AnchorEnv) (href : Option String) : AnchorOutcome :=
  match href with
  | none => { prevented := false, scrollTop := none, smooth := false }
  | some h =>
      if h = "#" || !jsStartsWith h "#" then
        { prevented := false, scrollTop := none, smooth := false }
      else
        match env.query h with
        | .error _ => { prevented := false, scrollTop := none, smooth := false }
        | .ok none => { prevented := false, scrollTop := none, smooth := false }
        | .ok (some rectTop) =>
            let headerStickyOffset : Int := 15
            let totalHeaderHeight : Int :=
              match env.header with
              | some (pos, hh) =>
                  if pos = "sticky" || pos = "fixed" then hh + headerStickyOffset else hh
              | none => 0
            let elementPosition := rectTop + env.pageYOffset
            let offsetPosition := elementPosition - totalHeaderHeight
            { prevented := true, scrollTop := some offsetPosition, smooth := true }

/-- Concrete environment used to instantiate the anchor-scroll claim: a
sticky 60px header, page scrolled 50px, target rectangle top at 100. -/
def sampleAnchorEnv : AnchorEnv :=
  { query := fun h =>
      if h = "#contact" then .ok (some 100)
      else if h = "#boom" then .error ()
      else .ok none
    pageYOffset := 50
    header := some ("sticky", 60) }

/-! ### Helper lemmas shared by the claims -/

/-- Running a pending animation-frame callback never changes the in-flight
guard. -/
theorem guard_preserved_by_raf (w : World) :
    (runRaf w).st.isTransitioning = w.st.isTransitioning := by
  unfold runRaf
  cases w.raf with
  | none => rfl
  | some a => cases a <;> simp [setOverlayOpacity, setOverlayBgColor, logEv]

/-- Delivering a `transitionend` event changes the in-flight guard only if
the armed handler is the phase-3 teardown. -/
theorem guard_preserved_by_nonfinal_events (w : World) (ev : TransitionEventJs)
    (h : w.listener ≠ some Phase.phase3) :
    (deliverTransitionEnd w ev).st.isTransitioning = w.st.isTransitioning := by
  cases hl : w.listener with
  | none => simp [deliverTransitionEnd, hl]
  | some p =>
    cases hc : w.ctx with
    | none => simp [deliverTransitionEnd, hl, hc]
    | some c =>
      cases p with
      | phase1 =>
          simp only [deliverTransitionEnd, hl, hc, handlePhase1EndBody]
          split
          · rfl
          · simp [setVisualThemeOnBody, setOverlayTransition, logEv]
      | phase2 =>
          simp only [deliverTransitionEnd, hl, hc, handlePhase2EndBody]
          split
          · rfl
          · simp [setOverlayTransition, logEv]
      | phase3 => exact absurd hl h

/-- `resetTransitionOverlay` never writes to the store. -/
theorem storeWrites_reset (w : World) :
    (resetTransitionOverlay w).st.storeWrites = w.st.storeWrites := by
  simp only [resetTransitionOverlay, setOverlayOpacity, setOverlayTransition,
    setOverlayPointerEvents, clearTimeoutW, logEv]
  repeat' split
  all_goals rfl

/-- Every path of `applyTheme` writes the requested setting to the store
exactly once. -/
theorem storeWrites_applyTheme (w : World) (s : ThemeSetting) (b : Bool) :
    (applyTheme w s b).st.storeWrites = w.st.storeWrites ++ [s.str] := by
  simp only [applyTheme, storeSet, updateToggleButtonState, setVisualThemeOnBody,
    setOverlayBgColor, setOverlayOpacity, setOverlayTransition, setOverlayPointerEvents,
    clearTimeoutW, setTimeoutW, logEv]
  repeat' split
  all_goals rfl

/-- Animation-frame callbacks never write to the store. -/
theorem storeWrites_runRaf (w : World) :
    (runRaf w).st.storeWrites = w.st.storeWrites := by
  unfold runRaf
  cases w.raf with
  | none => rfl
  | some a => cases a <;> simp [setOverlayOpacity, setOverlayBgColor, logEv]

/-- Phase-completion handlers never write to the store. -/
theorem storeWrites_deliver (w : World) (ev : TransitionEventJs) :
    (deliverTransitionEnd w ev).st.storeWrites = w.st.storeWrites := by
  cases hl : w.listener with
  | none => simp [deliverTransitionEnd, hl]
  | some p =>
    cases hc : w.ctx with
    | none => simp [deliverTransitionEnd, hl, hc]
    | some c =>
      cases p with
      | phase1 =>
          simp only [deliverTransitionEnd, hl, hc, handlePhase1EndBody]
          split
          · rfl
          · simp [setVisualThemeOnBody, setOverlayTransition, logEv]
      | phase2 =>
          simp only [deliverTransitionEnd, hl, hc, handlePhase2EndBody]
          split
          · rfl
          · simp [setOverlayTransition, logEv]
      | phase3 =>
          simp only [deliverTransitionEnd, hl, hc, handlePhase3EndBody]
          split
          · rfl
          · exact storeWrites_reset _

/-- The failsafe callback never writes to the store. -/
theorem storeWrites_fireTimer (w : World) (id : Nat) :
    (fireTimer w id).st.storeWrites = w.st.storeWrites := by
  simp only [fireTimer]
  split
  · rfl
  · split
    · have h1 := storeWrites_reset { w with timers := w.timers.filter (fun t => t.1 ≠ id) }
      simp only [updateToggleButtonState, setVisualThemeOnBody, logEv]
      repeat' split
      all_goals simp_all
    · rfl

/-- Every path of `applyTheme` sets the in-memory setting to the requested
setting and persists exactly its string form. -/
theorem applyTheme_setting_store (w : World) (s : ThemeSetting) (b : Bool) :
    (applyTheme w s b).st.currentThemeSetting = s ∧ (applyTheme w s b).st.store = some s.str := by
  simp only [applyTheme, storeSet, updateToggleButtonState, setVisualThemeOnBody,
    setOverlayBgColor, setOverlayOpacity, setOverlayTransition, setOverlayPointerEvents,
    clearTimeoutW, setTimeoutW, logEv]
  repeat' split
  all_goals exact ⟨rfl, rfl⟩

/-! ### The claims -/

/-- C1 (happy path, temporal order): for a non-initial `applyTheme` call
that changes the visible theme, with overlay and both icons present, the
effect trace shows, in strict order: the overlay painted with the current
background at opacity 0 with a 500ms opacity transition and pointer events
enabled, the failsafe armed at 2200ms, opacity raised to 1; then, inside
the phase-1 completion handler and while the overlay's opacity is still
`"1"`, the document marked `theme-transition-active`, a forced layout
read, the body's dark/light class flipped to the target, another forced
layout read, and the marker removed; then a 700ms background-color
transition to the target theme's background; then a 500ms opacity
transition back to 0; finally the teardown.  At the end the in-flight
guard is false, overlay opacity is `"0"`, pointer events are disabled,
and the persisted setting equals the request. -/
theorem c1_happy_path (t s : ThemeSetting) (h : s ≠ t) :
    (happyPathRun t s).trace =
      [.storeWrite s.str,
       .overlayBgColor (bgColorOf t),
       .overlayOpacity "0",
       .overlayTransition "opacity 500ms ease-in-out",
       .overlayPointerEvents "auto",
       .armTimer 1 2200,
       .overlayOpacity "1",
       .addBodyClass "theme-transition-active",
       .layoutRead,
       .setBodyDarkMode (s = .dark),
       .layoutRead,
       .removeBodyClass "theme-transition-active",
       .overlayTransition "background-color 700ms ease-in-out",
       .overlayBgColor (bgColorOf s),
       .overlayTransition "opacity 500ms ease-in-out",
       .overlayOpacity "0",
       .overlayPointerEvents "none",
       .overlayTransition "none",
       .overlayOpacity "0",
       .clearTimer 1,
       .removeBodyClass "theme-transition-active"] ∧
    (happyPathRun t s).st.isTransitioning = false ∧
    (happyPathRun t s).st.overlay.opacity = "0" ∧
    (happyPathRun t s).st.overlay.pointerEvents = "none" ∧
    (happyPathRun t s).st.store = some s.str ∧
    (happyPathRun t s).st.darkMode = (s = .dark) ∧
    (happyPathRun t s).timers = [] ∧
    (happyPathRun t s).listener = none := by
  cases s <;> cases t <;> simp_all <;> decide

/-- Witness for C1 at the concrete instance of a visible Light theme and a
Dark request. -/
theorem c1_happy_path_witness :
    ThemeSetting.dark ≠ ThemeSetting.light ∧
    ((happyPathRun .light .dark).trace =
      [.storeWrite ThemeSetting.dark.str,
       .overlayBgColor (bgColorOf .light),
       .overlayOpacity "0",
       .overlayTransition "opacity 500ms ease-in-out",
       .overlayPointerEvents "auto",
       .armTimer 1 2200,
       .overlayOpacity "1",
       .addBodyClass "theme-transition-active",
       .layoutRead,
       .setBodyDarkMode (ThemeSetting.dark = .dark),
       .layoutRead,
       .removeBodyClass "theme-transition-active",
       .overlayTransition "background-color 700ms ease-in-out",
       .overlayBgColor (bgColorOf .dark),
       .overlayTransition "opacity 500ms ease-in-out",
       .overlayOpacity "0",
       .overlayPointerEvents "none",
       .overlayTransition "none",
       .overlayOpacity "0",
       .clearTimer 1,
       .removeBodyClass "theme-transition-active"] ∧
    (happyPathRun .light .dark).st.isTransitioning = false ∧
    (happyPathRun .light .dark).st.overlay.opacity = "0" ∧
    (happyPathRun .light .dark).st.overlay.pointerEvents = "none" ∧
    (happyPathRun .light .dark).st.store = some ThemeSetting.dark.str ∧
    (happyPathRun .light .dark).st.darkMode = (ThemeSetting.dark = .dark) ∧
    (happyPathRun .light .dark).timers = [] ∧
    (happyPathRun .light .dark).listener = none) :=
  ⟨by decide, c1_happy_path .light .dark (by decide)⟩

/-- C2 (mutual exclusion with bookkeeping): a non-initial `applyTheme`
call made while a transition is in flight starts no second transition (no
listener, animation frame or timer is armed, the overlay is untouched, and
the only effect is the store write), the in-flight guard stays true after
the call, and the guard is preserved by animation frames and by every
event delivery other than the phase-3 teardown, so it remains true until
the first transition (or its failsafe) completes; yet after the call the
in-memory setting, the persisted value and the toggle control all reflect
the requested setting. -/
theorem c2_mutual_exclusion_bookkeeping :
    (∀ (w : World) (s : ThemeSetting),
      w.dom = allPresent → w.st.isTransitioning = true →
      (applyTheme w s false).st.isTransitioning = true ∧
      (applyTheme w s false).listener = w.listener ∧
      (applyTheme w s false).ctx = w.ctx ∧
      (applyTheme w s false).raf = w.raf ∧
      (applyTheme w s false).timers = w.timers ∧
      (applyTheme w s false).st.overlay = w.st.overlay ∧
      (applyTheme w s false).trace = w.trace ++ [.storeWrite s.str] ∧
      (applyTheme w s false).st.currentThemeSetting = s ∧
      (applyTheme w s false).st.store = some s.str ∧
      (applyTheme w s false).st.button = buttonFor s) ∧
    (∀ v : World, (runRaf v).st.isTransitioning = v.st.isTransitioning) ∧
    (∀ (v : World) (ev : TransitionEventJs), v.listener ≠ some Phase.phase3 →
      (deliverTransitionEnd v ev).st.isTransitioning = v.st.isTransitioning) := by
  refine ⟨?_, guard_preserved_by_raf, guard_preserved_by_nonfinal_events⟩
  intro w s hdom hbusy
  have hov : w.dom.hasOverlay = true := by rw [hdom]; rfl
  have hsun : w.dom.hasSunIcon = true := by rw [hdom]; rfl
  have hmoon : w.dom.hasMoonIcon = true := by rw [hdom]; rfl
  have hbtn : w.dom.hasToggleButton = true := by rw [hdom]; rfl
  simp only [applyTheme, storeSet, updateToggleButtonState, logEv,
    hov, hsun, hmoon, hbtn, hbusy, Bool.not_true, Bool.false_or, Bool.true_or, if_true]
  simp [buttonFor]

/-- Witness for C2 in the middle of a light-to-dark transition. -/
theorem c2_mutual_exclusion_bookkeeping_witness :
    phase1World.dom = allPresent ∧ phase1World.st.isTransitioning = true ∧
    (applyTheme phase1World ThemeSetting.light false).st.isTransitioning = true ∧
    (applyTheme phase1World ThemeSetting.light false).listener = phase1World.listener ∧
    (applyTheme phase1World ThemeSetting.light false).st.store = some "light" :=
  have h := c2_mutual_exclusion_bookkeeping.1 phase1World ThemeSetting.light
    (by decide) (by decide)
  ⟨by decide, by decide, h.1, h.2.1, h.2.2.2.2.2.2.2.2.1⟩

/-- C3 (failsafe recovery): a non-initial changing transition arms exactly
one fresh failsafe timer with duration 2200ms (the three phase durations
plus a 500ms margin), cancelling any previously pending one; if the timer
fires while the in-flight guard is true, the overlay is reset (pointer
events `"none"`, transition style cleared, opacity `"0"`), the guard is
cleared, the transition-suppression class is removed, the document's
visible theme class is forced to match the logical current setting, and
the toggle control is re-synced; and any natural completion (the
`resetTransitionOverlay` teardown) cancels the pending timer. -/
theorem c3_failsafe_recovery :
    (failsafeDuration = 2200 ∧
     failsafeDuration = phase1Duration + phase2Duration + phase3Duration + 500) ∧
    (∀ (w : World) (s : ThemeSetting),
      w.dom = allPresent → w.st.isTransitioning = false →
      s ≠ (if w.st.darkMode then ThemeSetting.dark else .light) →
      (applyTheme w s false).st.isTransitioning = true ∧
      (applyTheme w s false).st.failsafeTimeoutId = some w.nextTimerId ∧
      (applyTheme w s false).timers = (w.nextTimerId, failsafeDuration) ::
        (match w.st.failsafeTimeoutId with
         | some old => w.timers.filter (fun t => t.1 ≠ old)
         | none => w.timers) ∧
      (applyTheme w s false).listener = some Phase.phase1) ∧
    (∀ (w : World) (id ms : Nat),
      w.dom = allPresent → w.st.isTransitioning = true → (id, ms) ∈ w.timers →
      (fireTimer w id).st.isTransitioning = false ∧
      (fireTimer w id).st.overlay.pointerEvents = "none" ∧
      (fireTimer w id).st.overlay.transition = "none" ∧
      (fireTimer w id).st.overlay.opacity = "0" ∧
      (fireTimer w id).st.themeTransitionActive = false ∧
      (fireTimer w id).st.failsafeTimeoutId = none ∧
      (fireTimer w id).st.currentThemeSetting = w.st.currentThemeSetting ∧
      (fireTimer w id).st.darkMode = (w.st.currentThemeSetting = .dark) ∧
      (fireTimer w id).st.button = buttonFor w.st.currentThemeSetting) ∧
    (∀ w : World,
      (resetTransitionOverlay w).st.failsafeTimeoutId = none ∧
      (∀ id, w.st.failsafeTimeoutId = some id →
        ∀ ms, (id, ms) ∉ (resetTransitionOverlay w).timers)) := by
  refine ⟨⟨rfl, rfl⟩, ?_, ?_, ?_⟩
  · intro w s hdom hidle hdiff
    have hov : w.dom.hasOverlay = true := by rw [hdom]; rfl
    have hsun : w.dom.hasSunIcon = true := by rw [hdom]; rfl
    have hmoon : w.dom.hasMoonIcon = true := by rw [hdom]; rfl
    have hbtn : w.dom.hasToggleButton = true := by rw [hdom]; rfl
    rcases hfs : w.st.failsafeTimeoutId with _ | old <;>
      simp only [applyTheme, storeSet, updateToggleButtonState, setVisualThemeOnBody,
        setOverlayBgColor, setOverlayOpacity, setOverlayTransition, setOverlayPointerEvents,
        clearTimeoutW, setTimeoutW, logEv, hov, hsun, hmoon, hbtn, hidle, hfs,
        Bool.not_true, Bool.false_or] <;>
      simp [hdiff, hfs]
  · intro w id ms hdom hbusy hmem
    have hov : w.dom.hasOverlay = true := by rw [hdom]; rfl
    have hsun : w.dom.hasSunIcon = true := by rw [hdom]; rfl
    have hmoon : w.dom.hasMoonIcon = true := by rw [hdom]; rfl
    have hbtn : w.dom.hasToggleButton = true := by rw [hdom]; rfl
    have h1 : (id, ms) ∈ w.timers.filter (fun t => t.1 = id) :=
      List.mem_filter.2 ⟨hmem, by simp⟩
    have hne : (w.timers.filter (fun t => t.1 = id)).isEmpty = false := by
      cases hE : w.timers.filter (fun t => t.1 = id) with
      | nil => rw [hE] at h1; exact absurd h1 (List.not_mem_nil _)
      | cons a l => rfl
    rcases hfs : w.st.failsafeTimeoutId with _ | old <;>
      rcases hdm : w.st.darkMode with _ | _ <;>
      rcases hset : w.st.currentThemeSetting with _ | _ <;>
      simp [fireTimer, hne, hbusy, resetTransitionOverlay, setOverlayPointerEvents,
        setOverlayTransition, setOverlayOpacity, clearTimeoutW, logEv, setVisualThemeOnBody,
        updateToggleButtonState, buttonFor, hov, hsun, hmoon, hbtn, hfs, hdm, hset]
  · intro w
    refine ⟨?_, ?_⟩
    · rcases hfs : w.st.failsafeTimeoutId with _ | i <;>
        by_cases hov2 : w.dom.hasOverlay = true <;>
          simp [resetTransitionOverlay, clearTimeoutW, logEv, setOverlayOpacity,
            setOverlayTransition, setOverlayPointerEvents, hfs, hov2]
    · intro id hid ms hmem
      by_cases hov2 : w.dom.hasOverlay = true <;>
        simp [resetTransitionOverlay, clearTimeoutW, logEv, setOverlayOpacity,
          setOverlayTransition, setOverlayPointerEvents, hid, hov2, List.mem_filter] at hmem

/-- Witness for C3: the failsafe armed by a light-to-dark transition from
the idle world, and fired in the middle of phase 1. -/
theorem c3_failsafe_recovery_witness :
    ((idleWorld .light).dom = allPresent ∧ (idleWorld .light).st.isTransitioning = false ∧
     ThemeSetting.dark ≠ (if (idleWorld .light).st.darkMode then ThemeSetting.dark else .light) ∧
     (applyTheme (idleWorld .light) ThemeSetting.dark false).st.failsafeTimeoutId
       = some (idleWorld .light).nextTimerId ∧
     (applyTheme (idleWorld .light) ThemeSetting.dark false).timers
       = [((idleWorld .light).nextTimerId, failsafeDuration)]) ∧
    (phase1World.st.isTransitioning = true ∧ (1, 2200) ∈ phase1World.timers ∧
     (fireTimer phase1World 1).st.isTransitioning = false ∧
     (fireTimer phase1World 1).st.darkMode = (phase1World.st.currentThemeSetting = .dark) ∧
     (fireTimer phase1World 1).st.overlay.opacity = "0") :=
  have ha := c3_failsafe_recovery.2.1 (idleWorld .light) ThemeSetting.dark
    (by decide) (by decide) (by decide)
  have hf := c3_failsafe_recovery.2.2.1 phase1World 1 2200
    (by decide) (by decide) (by decide)
  ⟨⟨by decide, by decide, by decide, ha.2.1, by simpa using ha.2.2.1⟩,
   ⟨by decide, by decide, hf.1, hf.2.2.2.2.2.2.2.1, hf.2.2.2.1⟩⟩

/-- C4 (spurious-event filtering, actual behavior): the phase guards do
filter a spurious `transitionend` notification (the state is unchanged),
but because every phase listener is registered with `once: true`, the
spurious delivery removes the armed listener, so the genuine completion
that arrives later is ignored and the state machine does not advance: the
class flip never happens and the in-flight guard stays true (until the
failsafe).  Without the spurious event, the same genuine event does
advance the machine.  This refutes the claim that the phase handler
remains armed across ignored notifications. -/
theorem c4_once_listener_defeats_filtering :
    phase1World.listener = some Phase.phase1 ∧
    phase1World.st.isTransitioning = true ∧
    (deliverTransitionEnd phase1World evSpurious).st = phase1World.st ∧
    (deliverTransitionEnd phase1World evSpurious).listener = none ∧
    deliverTransitionEnd (deliverTransitionEnd phase1World evSpurious) evOpacity
      = deliverTransitionEnd phase1World evSpurious ∧
    (deliverTransitionEnd (deliverTransitionEnd phase1World evSpurious) evOpacity).st.darkMode
      = false ∧
    (deliverTransitionEnd (deliverTransitionEnd phase1World evSpurious) evOpacity).st.isTransitioning
      = true ∧
    (deliverTransitionEnd phase1World evOpacity).st.darkMode = true ∧
    (deliverTransitionEnd phase1World evOpacity).listener = some Phase.phase2 := by
  decide

/-- C5 (initial-load path): for every valid setting, a call with
`isInitialLoad = true` persists the setting, snaps the document's theme
class, updates the toggle control, and returns without starting any
overlay animation or touching the transition state: the in-flight guard
stays false, the overlay style is unchanged, and no listener, animation
frame or timer is armed. -/
theorem c5_initial_load (w : World) (s : ThemeSetting)
    (hdom : w.dom = allPresent) (hidle : w.st.isTransitioning = false) :
    (applyTheme w s true).st.store = some s.str ∧
    (applyTheme w s true).st.storeWrites = w.st.storeWrites ++ [s.str] ∧
    (applyTheme w s true).st.currentThemeSetting = s ∧
    (applyTheme w s true).st.darkMode = (s = .dark) ∧
    (applyTheme w s true).st.button = buttonFor s ∧
    (applyTheme w s true).st.isTransitioning = false ∧
    (applyTheme w s true).st.overlay = w.st.overlay ∧
    (applyTheme w s true).listener = w.listener ∧
    (applyTheme w s true).raf = w.raf ∧
    (applyTheme w s true).timers = w.timers ∧
    (applyTheme w s true).trace = w.trace ++ [.storeWrite s.str, .setBodyDarkMode (s = .dark)] := by
  have hov : w.dom.hasOverlay = true := by rw [hdom]; rfl
  have hsun : w.dom.hasSunIcon = true := by rw [hdom]; rfl
  have hmoon : w.dom.hasMoonIcon = true := by rw [hdom]; rfl
  have hbtn : w.dom.hasToggleButton = true := by rw [hdom]; rfl
  simp only [applyTheme, storeSet, updateToggleButtonState, setVisualThemeOnBody, logEv,
    hov, hsun, hmoon, hbtn, hidle, Bool.not_true, Bool.false_or, if_true, if_false]
  simp [buttonFor]

/-- Witness for C5 at the idle light world with a dark initial load. -/
theorem c5_initial_load_witness :
    (idleWorld .light).dom = allPresent ∧ (idleWorld .light).st.isTransitioning = false ∧
    (applyTheme (idleWorld .light) ThemeSetting.dark true).st.store = some "dark" ∧
    (applyTheme (idleWorld .light) ThemeSetting.dark true).st.darkMode = true ∧
    (applyTheme (idleWorld .light) ThemeSetting.dark true).listener = none :=
  have h := c5_initial_load (idleWorld .light) ThemeSetting.dark (by decide) (by decide)
  ⟨by decide, by decide, h.1, by simp [h.2.2.2.1], by rw [h.2.2.2.2.2.2.2.1]; decide⟩

/-- C6 (same-theme idempotence): a non-initial call whose requested
setting equals the currently visible body theme leaves the overlay and
transition state untouched (guard stays false, nothing armed, no overlay
effect in the trace) while still persisting the setting and updating the
toggle control. -/
theorem c6_same_theme_noop (w : World) (s : ThemeSetting)
    (hdom : w.dom = allPresent) (hidle : w.st.isTransitioning = false)
    (hsame : s = (if w.st.darkMode then ThemeSetting.dark else .light)) :
    (applyTheme w s false).st.overlay = w.st.overlay ∧
    (applyTheme w s false).st.isTransitioning = false ∧
    (applyTheme w s false).listener = w.listener ∧
    (applyTheme w s false).ctx = w.ctx ∧
    (applyTheme w s false).raf = w.raf ∧
    (applyTheme w s false).timers = w.timers ∧
    (applyTheme w s false).st.darkMode = w.st.darkMode ∧
    (applyTheme w s false).trace = w.trace ++ [.storeWrite s.str] ∧
    (applyTheme w s false).st.currentThemeSetting = s ∧
    (applyTheme w s false).st.store = some s.str ∧
    (applyTheme w s false).st.button = buttonFor s := by
  have hov : w.dom.hasOverlay = true := by rw [hdom]; rfl
  have hsun : w.dom.hasSunIcon = true := by rw [hdom]; rfl
  have hmoon : w.dom.hasMoonIcon = true := by rw [hdom]; rfl
  have hbtn : w.dom.hasToggleButton = true := by rw [hdom]; rfl
  simp only [applyTheme, storeSet, updateToggleButtonState, logEv,
    hov, hsun, hmoon, hbtn, hidle, Bool.not_true, Bool.false_or]
  simp [← hsame, buttonFor]

/-- Witness for C6: applying Dark while Dark is already visible. -/
theorem c6_same_theme_noop_witness :
    (idleWorld .dark).dom = allPresent ∧ (idleWorld .dark).st.isTransitioning = false ∧
    ThemeSetting.dark = (if (idleWorld .dark).st.darkMode then ThemeSetting.dark else .light) ∧
    (applyTheme (idleWorld .dark) ThemeSetting.dark false).st.overlay
      = (idleWorld .dark).st.overlay ∧
    (applyTheme (idleWorld .dark) ThemeSetting.dark false).st.isTransitioning = false ∧
    (applyTheme (idleWorld .dark) ThemeSetting.dark false).st.store = some "dark" :=
  have h := c6_same_theme_noop (idleWorld .dark) ThemeSetting.dark
    (by decide) (by decide) (by decide)
  ⟨by decide, by decide, by decide, h.1, h.2.1, h.2.2.2.2.2.2.2.2.2.1⟩

/-- C7 (stored-value normalization): on initialization, an absent or
invalid persisted `themeSetting` value yields the Light setting and the
store is immediately rewritten to the literal `"light"` (once by the
normalization and once by the initial apply); valid stored values are kept
as-is; and every store write ever performed by the controller — by
initialization, by any `applyTheme` call, or by any asynchronous handler
(which never write) — is exactly `"light"` or `"dark"`. -/
theorem c7_store_normalization :
    (∀ w : World, w.st.store ≠ some "dark" → w.st.store ≠ some "light" →
      (initComponentsTheme w).st.currentThemeSetting = .light ∧
      (initComponentsTheme w).st.store = some "light" ∧
      (initComponentsTheme w).st.storeWrites = w.st.storeWrites ++ ["light", "light"]) ∧
    (∀ w : World, w.st.store = some "dark" →
      (initComponentsTheme w).st.currentThemeSetting = .dark ∧
      (initComponentsTheme w).st.store = some "dark" ∧
      (initComponentsTheme w).st.storeWrites = w.st.storeWrites ++ ["dark"]) ∧
    (∀ w : World, w.st.store = some "light" →
      (initComponentsTheme w).st.currentThemeSetting = .light ∧
      (initComponentsTheme w).st.store = some "light" ∧
      (initComponentsTheme w).st.storeWrites = w.st.storeWrites ++ ["light"]) ∧
    (∀ (w : World) (s : ThemeSetting) (b : Bool),
      (applyTheme w s b).st.storeWrites = w.st.storeWrites ++ [s.str]) ∧
    (∀ s : ThemeSetting, s.str = "light" ∨ s.str = "dark") ∧
    (∀ (w : World) (ev : TransitionEventJs),
      (deliverTransitionEnd w ev).st.storeWrites = w.st.storeWrites) ∧
    (∀ w : World, (runRaf w).st.storeWrites = w.st.storeWrites) ∧
    (∀ (w : World) (id : Nat), (fireTimer w id).st.storeWrites = w.st.storeWrites) := by
  refine ⟨?_, ?_, ?_, storeWrites_applyTheme, ?_, storeWrites_deliver,
    storeWrites_runRaf, storeWrites_fireTimer⟩
  · intro w hd hl
    simp only [initComponentsTheme]
    rw [if_neg hd, if_pos hl]
    have harg : (storeSet { w with st := { w.st with currentThemeSetting := .light } }
        "light").st.currentThemeSetting = ThemeSetting.light := rfl
    rw [harg]
    refine ⟨(applyTheme_setting_store _ _ _).1, ?_, ?_⟩
    · simpa [ThemeSetting.str] using (applyTheme_setting_store _ ThemeSetting.light true).2
    · rw [storeWrites_applyTheme]
      simp [storeSet, logEv, ThemeSetting.str]
  · intro w hd
    simp only [initComponentsTheme]
    rw [if_pos hd]
    have harg : ({ w with st := { w.st with currentThemeSetting := .dark } } :
        World).st.currentThemeSetting = ThemeSetting.dark := rfl
    rw [harg]
    refine ⟨(applyTheme_setting_store _ _ _).1, ?_, ?_⟩
    · simpa [ThemeSetting.str] using (applyTheme_setting_store _ ThemeSetting.dark true).2
    · rw [storeWrites_applyTheme]
      exact rfl
  · intro w hl
    have hd : ¬ w.st.store = some "dark" := by rw [hl]; decide
    simp only [initComponentsTheme]
    rw [if_neg hd, if_neg (by rw [hl]; decide)]
    have harg : ({ w with st := { w.st with currentThemeSetting := .light } } :
        World).st.currentThemeSetting = ThemeSetting.light := rfl
    rw [harg]
    refine ⟨(applyTheme_setting_store _ _ _).1, ?_, ?_⟩
    · simpa [ThemeSetting.str] using (applyTheme_setting_store _ ThemeSetting.light true).2
    · rw [storeWrites_applyTheme]
      exact rfl
  · intro s
    cases s
    · exact Or.inl rfl
    · exact Or.inr rfl

/-- Witness for C7 at a world whose stored value is the invalid token
`"purple"`. -/
theorem c7_store_normalization_witness :
    invalidStoreWorld.st.store ≠ some "dark" ∧ invalidStoreWorld.st.store ≠ some "light" ∧
    (initComponentsTheme invalidStoreWorld).st.currentThemeSetting = ThemeSetting.light ∧
    (initComponentsTheme invalidStoreWorld).st.store = some "light" ∧
    (initComponentsTheme invalidStoreWorld).st.storeWrites
      = invalidStoreWorld.st.storeWrites ++ ["light", "light"] :=
  have h := c7_store_normalization.1 invalidStoreWorld (by decide) (by decide)
  ⟨by decide, by decide, h.1, h.2.1, h.2.2⟩

/-- C8 counterexample: with the sun icon missing but the toggle button
present, a degraded `applyTheme ThemeSetting.dark` call persists and snaps the theme
but leaves the toggle control untouched — the control still shows the
Light state (sun active, aria-label for Light) although the button
exists, contradicting the claim that the toggle control is updated
whenever it is present. -/
theorem c8_missing_icon_counterexample :
    iconMissingWorld.dom.hasToggleButton = true ∧
    iconMissingWorld.dom.hasSunIcon = false ∧
    (applyTheme iconMissingWorld .dark false).st.currentThemeSetting = ThemeSetting.dark ∧
    (applyTheme iconMissingWorld .dark false).st.button = iconMissingWorld.st.button ∧
    (applyTheme iconMissingWorld .dark false).st.button.moonActive = false ∧
    (applyTheme iconMissingWorld .dark false).st.button.sunActive = true ∧
    (applyTheme iconMissingWorld .dark false).st.button.ariaLabel
      = "Tema atual: Claro. Mudar para tema escuro." := by
  decide

/-- C8 as amended: when the overlay or either icon is absent, every
`applyTheme` call (initial or not) skips all animation logic — the
overlay, guard, listener, animation frame and timers are untouched — and
persists the setting, snaps the visible theme class, and updates the
toggle control only when the toggle button and both icons are all present
(that is, only when the overlay is the missing element); when an icon is
missing, the toggle control state is left unchanged. -/
theorem c8_degraded_path (w : World) (s : ThemeSetting) (b : Bool)
    (hdeg : w.dom.hasOverlay = false ∨ w.dom.hasSunIcon = false ∨ w.dom.hasMoonIcon = false) :
    (applyTheme w s b).st.currentThemeSetting = s ∧
    (applyTheme w s b).st.store = some s.str ∧
    (applyTheme w s b).st.darkMode = (s = .dark) ∧
    (applyTheme w s b).st.overlay = w.st.overlay ∧
    (applyTheme w s b).st.isTransitioning = w.st.isTransitioning ∧
    (applyTheme w s b).listener = w.listener ∧
    (applyTheme w s b).raf = w.raf ∧
    (applyTheme w s b).timers = w.timers ∧
    (applyTheme w s b).trace = w.trace ++ [.storeWrite s.str, .setBodyDarkMode (s = .dark)] ∧
    (w.dom.hasToggleButton = true → w.dom.hasSunIcon = true → w.dom.hasMoonIcon = true →
      (applyTheme w s b).st.button = buttonFor s) ∧
    (w.dom.hasSunIcon = false ∨ w.dom.hasMoonIcon = false →
      (applyTheme w s b).st.button = w.st.button) := by
  have hcond : (!w.dom.hasOverlay || !w.dom.hasSunIcon || !w.dom.hasMoonIcon) = true := by
    rcases hdeg with h | h | h <;> simp [h]
  simp only [applyTheme, hcond, if_true, storeSet, setVisualThemeOnBody, logEv]
  split <;> simp_all [updateToggleButtonState, buttonFor] <;> split <;> simp_all

/-- Witness for the amended C8 at the world missing its sun icon. -/
theorem c8_degraded_path_witness :
    (iconMissingWorld.dom.hasOverlay = false ∨ iconMissingWorld.dom.hasSunIcon = false ∨
      iconMissingWorld.dom.hasMoonIcon = false) ∧
    (applyTheme iconMissingWorld .dark false).st.store = some "dark" ∧
    (applyTheme iconMissingWorld .dark false).st.darkMode = true ∧
    (applyTheme iconMissingWorld .dark false).st.button = iconMissingWorld.st.button :=
  have h := c8_degraded_path iconMissingWorld ThemeSetting.dark false
    (Or.inr (Or.inl (by decide)))
  ⟨Or.inr (Or.inl (by decide)), h.2.1, by simp [h.2.2.1], h.2.2.2.2.2.2.2.2.2.2 (Or.inl (by decide))⟩

/-- C9 (implicit stale-visible-theme behavior): if `applyTheme s2` is
called while a transition to a different setting `s1` is in flight, the
call persists `s2` and updates the control but starts nothing new; when
the in-flight transition then completes naturally, its teardown cancels
the failsafe timer without re-checking the logical setting, leaving the
visible body theme at `s1` while the persisted setting and toggle control
show `s2`; nothing re-synchronizes them until the next toggle, which
computes `s1` as its target, finds it equal to the visible theme, and
re-aligns the logical setting without any animation. -/
theorem c9_stale_visible_theme (s1 s2 : ThemeSetting) (h : s1 ≠ s2) :
    ((applyTheme (runRaf (applyTheme (idleWorld s2) s1 false)) s2 false).st.currentThemeSetting = s2 ∧
     (applyTheme (runRaf (applyTheme (idleWorld s2) s1 false)) s2 false).st.store = some s2.str ∧
     (applyTheme (runRaf (applyTheme (idleWorld s2) s1 false)) s2 false).st.button = buttonFor s2 ∧
     (applyTheme (runRaf (applyTheme (idleWorld s2) s1 false)) s2 false).st.isTransitioning = true ∧
     (applyTheme (runRaf (applyTheme (idleWorld s2) s1 false)) s2 false).listener
       = (runRaf (applyTheme (idleWorld s2) s1 false)).listener ∧
     (applyTheme (runRaf (applyTheme (idleWorld s2) s1 false)) s2 false).raf
       = (runRaf (applyTheme (idleWorld s2) s1 false)).raf ∧
     (applyTheme (runRaf (applyTheme (idleWorld s2) s1 false)) s2 false).timers
       = (runRaf (applyTheme (idleWorld s2) s1 false)).timers) ∧
    ((staleScenario s1 s2).st.isTransitioning = false ∧
     (staleScenario s1 s2).timers = [] ∧
     (staleScenario s1 s2).st.failsafeTimeoutId = none ∧
     (staleScenario s1 s2).st.darkMode = (s1 = .dark) ∧
     (staleScenario s1 s2).st.currentThemeSetting = s2 ∧
     (staleScenario s1 s2).st.store = some s2.str ∧
     (staleScenario s1 s2).st.button = buttonFor s2 ∧
     (if (staleScenario s1 s2).st.darkMode then ThemeSetting.dark else .light)
       ≠ (staleScenario s1 s2).st.currentThemeSetting) ∧
    ((clickToggle (staleScenario s1 s2)).st.currentThemeSetting = s1 ∧
     (clickToggle (staleScenario s1 s2)).st.isTransitioning = false ∧
     (clickToggle (staleScenario s1 s2)).listener = none ∧
     (clickToggle (staleScenario s1 s2)).st.darkMode = (staleScenario s1 s2).st.darkMode) := by
  cases s1 <;> cases s2 <;> simp_all <;> decide

/-- Witness for C9: dark transition in flight, light requested mid-flight. -/
theorem c9_stale_visible_theme_witness :
    ThemeSetting.dark ≠ ThemeSetting.light ∧
    (staleScenario .dark .light).st.darkMode = (ThemeSetting.dark = .dark) ∧
    (staleScenario .dark .light).st.currentThemeSetting = ThemeSetting.light ∧
    (staleScenario .dark .light).st.store = some ThemeSetting.light.str ∧
    (staleScenario .dark .light).st.isTransitioning = false :=
  have h := c9_stale_visible_theme .dark .light (by decide)
  ⟨by decide, h.2.1.2.2.2.1, h.2.1.2.2.2.2.1, h.2.1.2.2.2.2.2.1, h.2.1.1⟩

/-- C10 (anchor scroll): a click on a same-page fragment link whose
target exists prevents the default navigation and smooth-scrolls to the
target's document offset (rectangle top plus page scroll) minus the
sticky or fixed header's rendered height plus the fixed 15px gap; a bare
`"#"` href, a missing target, or a selector lookup error produces no
scroll, no prevented default, and no surfaced failure. -/
theorem c10_anchor_scroll :
    (∀ (env : AnchorEnv) (h : String) (rectTop : Int) (pos : String) (hh : Int),
      h ≠ "#" → jsStartsWith h "#" = true →
      env.query h = .ok (some rectTop) → env.header = some (pos, hh) →
      (pos = "sticky" ∨ pos = "fixed") →
      handleAnchorClick env (some h) =
        { prevented := true, scrollTop := some (rectTop + env.pageYOffset - (hh + 15)),
          smooth := true }) ∧
    (∀ env : AnchorEnv, handleAnchorClick env (some "#") =
      { prevented := false, scrollTop := none, smooth := false }) ∧
    (∀ (env : AnchorEnv) (h : String), env.query h = .ok none →
      handleAnchorClick env (some h) =
        { prevented := false, scrollTop := none, smooth := false }) ∧
    (∀ (env : AnchorEnv) (h : String), env.query h = .error () →
      handleAnchorClick env (some h) =
        { prevented := false, scrollTop := none, smooth := false }) := by
  refine ⟨?_, ?_, ?_, ?_⟩
  · intro env h rectTop pos hh hne hsw hq hhd hsticky
    have hcond : (h = "#" || !jsStartsWith h "#") = false := by simp [hne, hsw]
    have hpos : (pos = "sticky" || pos = "fixed") = true := by
      rcases hsticky with h | h <;> simp [h]
    simp [handleAnchorClick, hcond, hq, hhd, hpos]
  · intro env
    simp [handleAnchorClick]
  · intro env h hq
    by_cases hb : (h = "#" || !jsStartsWith h "#") = true
    · simp [handleAnchorClick, hb]
    · simp only [Bool.not_eq_true] at hb
      simp [handleAnchorClick, hb, hq]
  · intro env h hq
    by_cases hb : (h = "#" || !jsStartsWith h "#") = true
    · simp [handleAnchorClick, hb]
    · simp only [Bool.not_eq_true] at hb
      simp [handleAnchorClick, hb, hq]

/-- Witness for C10 in the sample environment: found target, bare hash,
missing target, and throwing selector. -/
theorem c10_anchor_scroll_witness :
    ("#contact" ≠ "#") ∧ (jsStartsWith "#contact" "#" = true) ∧
    (sampleAnchorEnv.query "#contact" = .ok (some 100)) ∧
    (sampleAnchorEnv.header = some ("sticky", 60)) ∧
    handleAnchorClick sampleAnchorEnv (some "#contact") =
      { prevented := true, scrollTop := some 75, smooth := true } ∧
    handleAnchorClick sampleAnchorEnv (some "#") =
      { prevented := false, scrollTop := none, smooth := false } ∧
    handleAnchorClick sampleAnchorEnv (some "#missing") =
      { prevented := false, scrollTop := none, smooth := false } ∧
    handleAnchorClick sampleAnchorEnv (some "#boom") =
      { prevented := false, scrollTop := none, smooth := false } := by
  refine ⟨by decide, by decide, rfl, rfl, ?_, ?_, ?_, ?_⟩
  · have h := c10_anchor_scroll.1 sampleAnchorEnv "#contact" 100 "sticky" 60
      (by decide) (by decide) rfl rfl (Or.inl rfl)
    simpa using h
  · exact c10_anchor_scroll.2.1 sampleAnchorEnv
  · exact c10_anchor_scroll.2.2.1 sampleAnchorEnv "#missing" rfl
  · exact c10_anchor_scroll.2.2.2 sampleAnchorEnv "#boom" rfl
